import Mathlib

/-!
Shallow embedding of the CoFlow client (`coflow.py`): a Python client for a
remote steady-state simulation service.  HTTP traffic is modelled by scripts
of responses supplied to each operation, and every operation returns both an
outcome (normal value, raised exception, or divergence of an unbounded
polling loop) and the trace of externally visible events it produced
(HTTP requests, sleeps, and close-method invocations).
-/

/-- Python exception values raised by the client.  `keyError`, `indexError`,
`typeError`, `attributeError` and `unboundLocalError` are the builtin Python
exceptions; `authError`, `sessionError` and `coFlowError` are the dataclass
exceptions declared at the top of `coflow.py`. -/
inductive PyExc where
  | authError (msg : String)
  | sessionError (msg : String)
  | coFlowError (msg : String)
  | keyError (key : String)
  | indexError
  | attributeError (msg : String)
  | typeError (msg : String)
  | unboundLocalError (msg : String)
  | valueError (msg : String)
deriving DecidableEq, Repr

/-- Externally visible events of one execution: HTTP requests issued by the
`requests` library, `time.sleep` calls, and invocations of the
`close_steady_state` method (the latter mirrors the spec's fake transport
counting open/close invocations). -/
inductive Event where
  | httpPost (url : String)
  | httpGet (url : String)
  | httpDelete (url : String)
  | sleep (seconds : Nat)
  | closeCall (url : String)
deriving DecidableEq, Repr

/-- Result of running a piece of scripted client code: a returned value, a
raised Python exception, or divergence (`hang`: an unbounded polling loop
that consumed its whole response script without reaching a terminal state,
i.e. the remote side never answered with a terminal status). -/
inductive Outcome (α : Type) where
  | ok (a : α)
  | exc (e : PyExc)
  | hang
deriving DecidableEq, Repr

/-- An effectful result: outcome plus the trace of events produced. -/
abbrev Eff (α : Type) : Type := Outcome α × List Event

/-- Decidable equality for `Except`, used to evaluate concrete client runs
in witnesses. -/
instance {ε α : Type} [DecidableEq ε] [DecidableEq α] :
    DecidableEq (Except ε α) := fun a b =>
  match a, b with
  | .error e1, .error e2 =>
    if h : e1 = e2 then isTrue (by rw [h]) else isFalse (by simp [h])
  | .error _, .ok _ => isFalse (by simp)
  | .ok _, .error _ => isFalse (by simp)
  | .ok a1, .ok a2 =>
    if h : a1 = a2 then isTrue (by rw [h]) else isFalse (by simp [h])

/-- Python `d[k]` on a dict modelled as an association list (first match;
dicts built with `dictInsert` have unique keys). -/
def dictGet? {α : Type} (d : List (String × α)) (k : String) : Option α :=
  match d with
  | [] => none
  | kv :: rest => if kv.1 = k then some kv.2 else dictGet? rest k

/-- Python `d[k] = v` on a dict modelled as an association list: replaces the
value at an existing key in place, otherwise appends (insertion order). -/
def dictInsert {α : Type} (d : List (String × α)) (k : String) (v : α) :
    List (String × α) :=
  match d with
  | [] => [(k, v)]
  | kv :: rest => if kv.1 = k then (k, v) :: rest else kv :: dictInsert rest k v

/-- Key list of a modelled Python dict. -/
def keysOf {α : Type} (d : List (String × α)) : List String :=
  d.map Prod.fst

/-- Result of `urllib.parse.urlsplit`. -/
structure SplitResult where
  scheme : String
  netloc : String
  path : String
  query : String
  fragment : String
deriving DecidableEq, Repr

/-- C0 control characters and space, stripped from the start of a URL by
`urlsplit`. -/
def isCtlOrSpace (c : Char) : Bool :=
  decide (c.val ≤ 32)

/-- Strip leading C0 control characters and spaces (`urlsplit` only strips
the left end, preserving trailing spaces). -/
def stripLeading (cs : List Char) : List Char :=
  cs.dropWhile isCtlOrSpace

/-- Remove tab, carriage return and line feed anywhere in the URL, as
`urlsplit` does. -/
def removeTabNewline (cs : List Char) : List Char :=
  cs.filter (fun c => !(c == '\t' || c == '\r' || c == '\n'))

/-- Characters allowed in a URL scheme: ASCII letters, digits, `+`, `-`, `.`. -/
def isSchemeChar (c : Char) : Bool :=
  c.isAlpha || c.isDigit || c == '+' || c == '-' || c == '.'

/-- Split a character list at the first occurrence of `sep`, dropping the
separator; `none` when `sep` does not occur. -/
def splitAtFirst (sep : Char) : List Char → Option (List Char × List Char)
  | [] => none
  | c :: rest =>
    if c = sep then some ([], rest)
    else
      match splitAtFirst sep rest with
      | none => none
      | some (a, b) => some (c :: a, b)

/-- Python `str.split(sep)` for a single-character separator: splits on every
occurrence, keeping empty pieces (`"".split` gives `[""]`). -/
def splitOnChar (sep : Char) : List Char → List (List Char)
  | [] => [[]]
  | c :: rest =>
    let r := splitOnChar sep rest
    if c = sep then [] :: r
    else
      match r with
      | [] => [[c]]
      | g :: gs => (c :: g) :: gs

/-- Network-location part of a URL: everything up to the first `/`, `?` or
`#` after the leading `//`. -/
def takeNetloc : List Char → List Char × List Char
  | [] => ([], [])
  | c :: rest =>
    if c = '/' ∨ c = '?' ∨ c = '#' then ([], c :: rest)
    else
      let (n, r) := takeNetloc rest
      (c :: n, r)

/-- Lower-case a character list, as Python lower-cases the parsed scheme. -/
def pyLower (cs : List Char) : List Char :=
  cs.map Char.toLower

/-- Modelled from `urllib.parse.urlsplit` (Python standard library, called by
`CoFlow.create_init_request`): strip leading control characters and
spaces, delete tab/CR/LF, split off a scheme when the prefix before the first
`:` is a well-formed scheme, parse a network location only after a leading
`//`, then split off fragment (first `#`) and query (first `?`).  The checks
that reject bracketed IPv6 hosts and non-ASCII network locations with a
`ValueError` are not modelled; theorems quantifying over paths therefore
restrict to bracket-free ASCII input, where those checks never fire. -/
def urlsplit (url : String) : SplitResult :=
  let cs := removeTabNewline (stripLeading url.toList)
  let schemeSplit :=
    match splitAtFirst ':' cs with
    | none => (([] : List Char), cs)
    | some (pre, post) =>
      match pre with
      | [] => (([] : List Char), cs)
      | c0 :: rest =>
        if c0.isAlpha && (c0 :: rest).all isSchemeChar then (pyLower pre, post)
        else (([] : List Char), cs)
  let netlocSplit :=
    match schemeSplit.2 with
    | '/' :: '/' :: rest => takeNetloc rest
    | other => (([] : List Char), other)
  let fragSplit :=
    match splitAtFirst '#' netlocSplit.2 with
    | none => (netlocSplit.2, ([] : List Char))
    | some (a, b) => (a, b)
  let querySplit :=
    match splitAtFirst '?' fragSplit.1 with
    | none => (fragSplit.1, ([] : List Char))
    | some (a, b) => (a, b)
  ⟨String.mk schemeSplit.1, String.mk netlocSplit.1, String.mk querySplit.1,
    String.mk querySplit.2, String.mk fragSplit.2⟩

/-- The `components` list of `CoFlow.create_init_request`: the URL path part
of the model path, split on `/` as by Python `str.split`. -/
def pathComponents (path : String) : List String :=
  (splitOnChar '/' (urlsplit path).path.toList).map (fun l => String.mk l)

/-- The `initializationInfo` part of the init request body. -/
structure InitializationInfo where
  repositoryName : String
  projectName : String
  studyName : String
deriving DecidableEq, Repr

/-- The `editableInfo` part of the init request body. -/
structure EditableInfo where
  systemOfUnits : String
  caseName : String
deriving DecidableEq, Repr

/-- The init request body built by `CoFlow.create_init_request`. -/
structure InitRequest where
  initializationInfo : InitializationInfo
  editableInfo : EditableInfo
deriving DecidableEq, Repr

/-- `CoFlow.create_init_request` (`coflow.py` lines 217-239; `self` is
unused by the method body): split the model path as a URL, take the network
location as repository name and the path components at indices 1, 2, 3 as
project, study and target case.  A missing component raises `IndexError`,
which the method's `except` clause prints and re-raises unchanged. -/
def create_init_request (path : String) : Except PyExc InitRequest :=
  let pathAsUrl := urlsplit path
  let components := pathComponents path
  let repo := pathAsUrl.netloc
  match components.get? 1 with
  | none => .error .indexError
  | some project =>
    match components.get? 2 with
    | none => .error .indexError
    | some study =>
      match components.get? 3 with
      | none => .error .indexError
      | some target_case =>
        .ok ⟨⟨repo, project, study⟩, ⟨"SI", target_case⟩⟩

/-- Modelled from the spec: `lookup_status_code` scans the `requests`
library's status-code table (a library detail outside this repository) to
produce a human-readable status description.  Since no claim inspects this
text, it is modelled as a plain rendering of the numeric code. -/
def lookup_status_code (code : Nat) : String :=
  "Code: " ++ toString code

/-- The `CoFlowSessionStatus` enum of `coflow.py`. -/
inductive CoFlowSessionStatus where
  | Unknown
  | Pending
  | Running
  | Failed
deriving DecidableEq, Repr

/-- Integer value of each `CoFlowSessionStatus` member; the enum's `__eq__`
override compares this value against raw integers from the JSON body. -/
def CoFlowSessionStatus.value : CoFlowSessionStatus → Int
  | .Unknown => 0
  | .Pending => 100
  | .Running => 200
  | .Failed => 300

/-- `lookup_coflow_status_code`: description text for a CoFlow service
status code. -/
def lookup_coflow_status_code (code : Int) : String :=
  if code = 0 then "Status: Unknown, Code: 0"
  else if code = 100 then "Status: Pending, Code: 100"
  else if code = 200 then "Status: Running, Code: 200"
  else if code = 300 then "Status: Failed, Code: 300"
  else "Error: Unrecognized status code " ++ toString code ++ "."

/-- Checks whether the pattern is an initial segment of the text. -/
def startsWithPat : List Char → List Char → Bool
  | [], _ => true
  | _ :: _, [] => false
  | p :: ps, c :: cs => p == c && startsWithPat ps cs

/-- Replace every occurrence of the non-empty pattern `p0 :: ps` by `rep`,
scanning left to right as Python `str.replace` does.  The fuel argument (the
length of the remaining text suffices) keeps the recursion structural so that
the kernel can evaluate the definition. -/
def replaceAllFuel (p0 : Char) (ps rep : List Char) : Nat → List Char → List Char
  | _, [] => []
  | 0, cs => cs
  | Nat.succ n, c :: rest =>
    if startsWithPat (p0 :: ps) (c :: rest) then
      rep ++ replaceAllFuel p0 ps rep n (rest.drop ps.length)
    else
      c :: replaceAllFuel p0 ps rep n rest

/-- Python `s.replace(pat, rep)` for a non-empty pattern (the client only
replaces the literal `/status`; Python's empty-pattern behavior is never
exercised and an empty pattern is modelled as the identity). -/
def pyReplace (s pat rep : String) : String :=
  match pat.toList with
  | [] => s
  | p0 :: ps => String.mk (replaceAllFuel p0 ps rep.toList s.toList.length s.toList)

/-- Scripted response to the create-session POST: HTTP status, the optional
`Location` header, and the response body text. -/
structure CreateSessionResp where
  status : Nat
  location : Option String
  text : String
deriving DecidableEq, Repr

/-- Scripted response to one session-status poll GET: HTTP status and the
`statusCode` integer of the JSON body. -/
structure PollResp where
  status : Nat
  statusCode : Int
deriving DecidableEq, Repr

/-- Scripted response to the steady-state init POST. -/
structure InitResp where
  status : Nat
deriving DecidableEq, Repr

/-- Scripted response to a DELETE request. -/
structure DeleteResp where
  status : Nat
deriving DecidableEq, Repr

/-- Scripted response to the run-submission POST. -/
structure RunPostResp where
  status : Nat
  text : String
deriving DecidableEq, Repr

/-- Scripted response to one run-status poll GET: HTTP status, the `status`
and `message` fields of the JSON body, and the raw body text. -/
structure RunPollResp where
  status : Nat
  runStatus : String
  message : String
  text : String
deriving DecidableEq, Repr

/-- One property triple of a query response body. -/
structure OutProp where
  propertyPath : String
  unit : String
  value : Rat
deriving DecidableEq, Repr

/-- Scripted response to the query POST: HTTP status, body text, and the
parsed `properties` list of the JSON body. -/
structure QueryResp where
  status : Nat
  text : String
  properties : List OutProp
deriving DecidableEq, Repr

/-- Scripted response to the close-session DELETE. -/
structure CloseResp where
  status : Nat
  text : String
deriving DecidableEq, Repr

/-- Responses scripted for one `CoFlow.open_steady_state` call: the
create-session response, the session-status poll responses in order, the
init response, and the response to the cleanup DELETE attempted on init
failure. -/
structure OpenScript where
  createResp : CreateSessionResp
  pollResps : List PollResp
  initResp : InitResp
  cleanupResp : DeleteResp
deriving DecidableEq, Repr

/-- The `CoFlow` client dataclass: tenant base URL and API key. -/
structure CoFlow where
  url : String
  api_key : String
deriving DecidableEq, Repr

/-- The `SteadyState` client dataclass returned by `open_steady_state`. -/
structure SteadyState where
  steady_state_url : String
  api_key : String
deriving DecidableEq, Repr

/-- One property triple of a run-request body. -/
structure InProp where
  propertyPath : String
  unit : String
  value : Rat
deriving DecidableEq, Repr

/-- One property pair of a query-request body. -/
structure OutReqProp where
  propertyPath : String
  unit : String
deriving DecidableEq, Repr

/-- JSON body `{"properties": [...]}` posted to the run endpoint. -/
structure RunBody where
  properties : List InProp
deriving DecidableEq, Repr

/-- JSON body `{"properties": [...]}` posted to the query endpoint. -/
structure QueryReqBody where
  properties : List OutReqProp
deriving DecidableEq, Repr

/-- Parsed JSON body returned by the query endpoint. -/
structure QueryBody where
  properties : List OutProp
deriving DecidableEq, Repr

/-- The session-status polling loop of `CoFlow.open_steady_state`
(`coflow.py` lines 160-183): GET the status resource; a non-200 HTTP status
raises `SessionError`; `statusCode` 100 (Pending) sleeps 1 second and
retries; 200 (Running) leaves the loop; 300 (Failed) raises `CoFlowError`;
anything else raises `CoFlowError`.  An exhausted script models a remote
side that never answers the outstanding GET: the loop diverges. -/
def pollSessionLoop (statusUrl : String) : List PollResp → Eff Unit
  | [] => (.hang, [Event.httpGet statusUrl])
  | r :: rest =>
    if r.status ≠ 200 then
      (.exc (.sessionError ("Cannot get session status: " ++
        lookup_status_code r.status)), [Event.httpGet statusUrl])
    else if r.statusCode = CoFlowSessionStatus.Pending.value then
      let next := pollSessionLoop statusUrl rest
      (next.1, Event.httpGet statusUrl :: Event.sleep 1 :: next.2)
    else if r.statusCode = CoFlowSessionStatus.Running.value then
      (.ok (), [Event.httpGet statusUrl])
    else if r.statusCode = CoFlowSessionStatus.Failed.value then
      (.exc (.coFlowError ("Failed to create session: " ++
        lookup_coflow_status_code r.statusCode)), [Event.httpGet statusUrl])
    else
      (.exc (.coFlowError ("Unknown error: " ++
        lookup_coflow_status_code r.statusCode)), [Event.httpGet statusUrl])

/-- `CoFlow._close_state_state_session` (`coflow.py` lines 267-274): DELETE
the session resource, then test `response.status_code != response.codes.OK`.
A `requests.Response` object has no `codes` attribute (the author meant
`requests.codes`), so the attribute access raises `AttributeError` no matter
what the DELETE returned, before the intended log-and-continue branch can
run. -/
def close_state_state_session (session_url : String) (_resp : DeleteResp) :
    Eff Unit :=
  (.exc (.attributeError ("Response object has no attribute codes")),
    [Event.httpDelete session_url])

/-- `CoFlow.open_steady_state` (`coflow.py` lines 136-215): POST a session
request; 401/405 raises `AuthError`, any other non-202 status raises
`SessionError`; on 202, poll the status resource named by the `Location`
header (a missing header makes `self.url + None` raise `TypeError`); once
Running, sleep 3 seconds, build the init request from the model path and
POST it; a non-201 init status triggers the cleanup DELETE and then a
`SessionError`; on 201 return the `SteadyState` client. -/
def CoFlow.open_steady_state (c : CoFlow) (path : String) (_cores _mem : Nat)
    (s : OpenScript) : Eff SteadyState :=
  let postEv := Event.httpPost (c.url ++ "/sessions")
  let resp := s.createResp
  if resp.status = 401 ∨ resp.status = 405 then
    (.exc (.authError ("401 UNAUTHORIZED error: try updating your API Key")),
      [postEv])
  else if resp.status ≠ 202 then
    (.exc (.sessionError ("Failed to create steady state session: " ++
      resp.text ++ ": " ++ lookup_status_code resp.status)), [postEv])
  else
    match resp.location with
    | none =>
      (.exc (.typeError ("can only concatenate str (not NoneType) to str")),
        [postEv])
    | some location =>
      let poll := pollSessionLoop (c.url ++ location) s.pollResps
      match poll.1 with
      | .hang => (.hang, postEv :: poll.2)
      | .exc e => (.exc e, postEv :: poll.2)
      | .ok _ =>
        let ss_url := c.url ++ pyReplace location ("/status") ("") ++
          "/current/api/v1/steady-state"
        match create_init_request path with
        | .error e => (.exc e, postEv :: poll.2 ++ [Event.sleep 3])
        | .ok _initReq =>
          let session_url := ss_url ++ "/session"
          let initEv := Event.httpPost session_url
          if s.initResp.status ≠ 201 then
            let cleanup := close_state_state_session session_url s.cleanupResp
            match cleanup.1 with
            | .exc e =>
              (.exc e, postEv :: poll.2 ++ [Event.sleep 3, initEv] ++ cleanup.2)
            | _ =>
              (.exc (.sessionError ("Failed to initialize steady state model: "
                ++ lookup_status_code s.initResp.status)),
                postEv :: poll.2 ++ [Event.sleep 3, initEv] ++ cleanup.2)
          else
            (.ok ⟨ss_url, c.api_key⟩, postEv :: poll.2 ++ [Event.sleep 3, initEv])

/-- `CoFlow.close_steady_state` (`coflow.py` lines 255-265): DELETE the
steady-state session resource; a non-202 status raises `SessionError`.  The
`closeCall` event records the method invocation itself, so that close calls
can be counted independently of the other DELETE traffic. -/
def CoFlow.close_steady_state (_c : CoFlow) (ss : SteadyState)
    (resp : CloseResp) : Eff Unit :=
  let url := ss.steady_state_url ++ "/session"
  let evs := [Event.closeCall url, Event.httpDelete url]
  if resp.status ≠ 202 then
    (.exc (.sessionError (resp.text ++ ": " ++ lookup_status_code resp.status)),
      evs)
  else
    (.ok (), evs)

/-- The run-status polling loop of `SteadyState.run` (`coflow.py` lines
99-117): GET the run resource; a non-200 HTTP status raises `SessionError`;
a body status of `Succeeded` or `Failed` ends the loop (identically for
both); anything else sleeps 1 second and polls again. -/
def runPollLoop (url : String) : List RunPollResp → Eff Unit
  | [] => (.hang, [Event.httpGet (url ++ "/run")])
  | r :: rest =>
    let ev := Event.httpGet (url ++ "/run")
    if r.status ≠ 200 then
      (.exc (.sessionError (r.text ++ ": " ++ lookup_status_code r.status)),
        [ev])
    else if r.runStatus = "Succeeded" ∨ r.runStatus = "Failed" then
      (.ok (), [ev])
    else
      let next := runPollLoop url rest
      (next.1, ev :: Event.sleep 1 :: next.2)

/-- `SteadyState.run` (`coflow.py` lines 88-117): POST the input properties
to the run endpoint; a non-202 status raises `SessionError`; otherwise poll
the run status until it is terminal.  The method returns `None` either way:
the outcome does not distinguish `Succeeded` from `Failed`. -/
def SteadyState.run (ss : SteadyState) (_values : RunBody)
    (post : RunPostResp) (polls : List RunPollResp) : Eff Unit :=
  let postEv := Event.httpPost (ss.steady_state_url ++ "/run")
  if post.status ≠ 202 then
    (.exc (.sessionError (post.text ++ ": " ++ lookup_status_code post.status)),
      [postEv])
  else
    let loop := runPollLoop ss.steady_state_url polls
    (loop.1, postEv :: loop.2)

/-- `SteadyState.query` (`coflow.py` lines 119-128): POST the requested
property list to the query endpoint; a non-200 status raises `SessionError`;
otherwise return the parsed JSON body. -/
def SteadyState.query (ss : SteadyState) (_request : QueryReqBody)
    (resp : QueryResp) : Eff QueryBody :=
  let ev := Event.httpPost (ss.steady_state_url ++ "/query")
  if resp.status ≠ 200 then
    (.exc (.sessionError (resp.text ++ ": " ++ lookup_status_code resp.status)),
      [ev])
  else
    (.ok ⟨resp.properties⟩, [ev])

/-- A property definition of the facade's input/output dicts: remote path
and unit of one aliased variable. -/
structure PropDef where
  path : String
  unit : String
deriving DecidableEq, Repr

/-- The `SteadyStateModel` facade (`coflow.py` lines 277-282): CoFlow client,
model path, and the alias-to-property definitions for inputs and outputs.
The Python dicts are modelled as insertion-ordered association lists with
unique keys. -/
structure SteadyStateModel where
  client : CoFlow
  model_path : String
  input_defs : List (String × PropDef)
  output_defs : List (String × PropDef)
deriving DecidableEq, Repr

/-- Responses scripted for one `SteadyStateModel.run` call. -/
structure FacadeScript where
  openScript : OpenScript
  runPost : RunPostResp
  runPolls : List RunPollResp
  queryResp : QueryResp
  closeResp : CloseResp
deriving DecidableEq, Repr

/-- The input-payload loop of `SteadyStateModel.run` (`coflow.py` lines
285-293): for each declared input alias in order, look the alias up in the
supplied values (`input_values[alias]` raises `KeyError` when absent) and
build the property triple. -/
def buildInputPayload (defs : List (String × PropDef))
    (values : List (String × Rat)) : Except PyExc (List InProp) :=
  match defs with
  | [] => .ok []
  | kp :: rest =>
    match dictGet? values kp.1 with
    | none => .error (.keyError kp.1)
    | some v =>
      match buildInputPayload rest values with
      | .error e => .error e
      | .ok ps => .ok (⟨kp.2.path, kp.2.unit, v⟩ :: ps)

/-- The output-payload loop of `SteadyStateModel.run` (`coflow.py` lines
295-302): one (path, unit) pair per declared output alias, in order. -/
def buildOutputPayload (defs : List (String × PropDef)) : List OutReqProp :=
  defs.map (fun kp => ⟨kp.2.path, kp.2.unit⟩)

/-- Accumulating loop for `output_lookup` (`coflow.py` line 303):
`output_lookup[prop.path] = (alias, prop)` for each declared output in
order, so a later alias with the same path overwrites an earlier one. -/
def buildOutputLookupAux (acc : List (String × (String × PropDef))) :
    List (String × PropDef) → List (String × (String × PropDef))
  | [] => acc
  | kp :: rest => buildOutputLookupAux (dictInsert acc kp.2.path (kp.1, kp.2)) rest

/-- The path-keyed `output_lookup` dict built from the declared outputs. -/
def buildOutputLookup (defs : List (String × PropDef)) :
    List (String × (String × PropDef)) :=
  buildOutputLookupAux [] defs

/-- The result-translation loop of `SteadyStateModel.run` (`coflow.py`
lines 309-316): for each returned property triple, `output_lookup[path]`
(raising `KeyError` for an undeclared path) names the alias under which the
value is stored in the output dict. -/
def translateOutputs (lk : List (String × (String × PropDef)))
    (acc : List (String × Rat)) : List OutProp → Except PyExc (List (String × Rat))
  | [] => .ok acc
  | p :: rest =>
    match dictGet? lk p.propertyPath with
    | none => .error (.keyError p.propertyPath)
    | some ap => translateOutputs lk (dictInsert acc ap.1 p.value) rest

/-- The `finally` block of `SteadyStateModel.run` (`coflow.py` lines
319-320): `self.client.close_steady_state(model)`.  When the `try` block
raised before the assignment to the local variable `model`, evaluating the
argument raises `UnboundLocalError` and `close_steady_state` is never
entered. -/
def facadeFinally (modelVar : Option SteadyState) (c : CoFlow)
    (resp : CloseResp) : Eff Unit :=
  match modelVar with
  | none =>
    (.exc (.unboundLocalError
      ("cannot access local variable model where it is not associated with a value")),
      [])
  | some ss => CoFlow.close_steady_state c ss resp

/-- The `try` block of `SteadyStateModel.run` (`coflow.py` lines 305-317):
open the session, run, query, translate the results.  Besides the outcome
and events it returns the final value of the local variable `model` (set
only once `open_steady_state` has returned), which the `finally` block
reads. -/
def facadeTry (m : SteadyStateModel) (inPayload : List InProp)
    (s : FacadeScript) :
    Outcome (List (String × Rat)) × List Event × Option SteadyState :=
  match CoFlow.open_steady_state m.client m.model_path 1 1024 s.openScript with
  | (.exc e, evs) => (.exc e, evs, none)
  | (.hang, evs) => (.hang, evs, none)
  | (.ok ss, evs) =>
    match SteadyState.run ss ⟨inPayload⟩ s.runPost s.runPolls with
    | (.exc e, evs2) => (.exc e, evs ++ evs2, some ss)
    | (.hang, evs2) => (.hang, evs ++ evs2, some ss)
    | (.ok _, evs2) =>
      match SteadyState.query ss ⟨buildOutputPayload m.output_defs⟩ s.queryResp with
      | (.exc e, evs3) => (.exc e, evs ++ evs2 ++ evs3, some ss)
      | (.hang, evs3) => (.hang, evs ++ evs2 ++ evs3, some ss)
      | (.ok body, evs3) =>
        match translateOutputs (buildOutputLookup m.output_defs) []
            body.properties with
        | .error e => (.exc e, evs ++ evs2 ++ evs3, some ss)
        | .ok out => (.ok out, evs ++ evs2 ++ evs3, some ss)

/-- `SteadyStateModel.run` (`coflow.py` lines 284-320): build the input
payload (outside the `try`, so a missing input alias raises before any
session is opened), then run the `try` block and, unless it diverged, the
`finally` block.  An exception raised by `finally` replaces the `try`
outcome, as in Python. -/
def SteadyStateModel.run (m : SteadyStateModel)
    (input_values : List (String × Rat)) (s : FacadeScript) :
    Eff (List (String × Rat)) :=
  match buildInputPayload m.input_defs input_values with
  | .error e => (.exc e, [])
  | .ok inPayload =>
    let t := facadeTry m inPayload s
    match t.1 with
    | .hang => (.hang, t.2.1)
    | tryO =>
      let fin := facadeFinally t.2.2 m.client s.closeResp
      match fin.1 with
      | .ok _ => (tryO, t.2.1 ++ fin.2)
      | .exc e => (.exc e, t.2.1 ++ fin.2)
      | .hang => (.hang, t.2.1 ++ fin.2)

/-- Recognizer for `closeCall` events. -/
def isCloseCall : Event → Bool
  | .closeCall _ => true
  | _ => false

/-- Number of `close_steady_state` invocations in an event trace. -/
def countCloseCalls (evs : List Event) : Nat :=
  evs.countP isCloseCall

theorem mem_dictInsert {α : Type} {d : List (String × α)} {k : String} {v : α}
    {x : String × α} (h : x ∈ dictInsert d k v) : x = (k, v) ∨ x ∈ d := by
  induction d with
  | nil => simpa [dictInsert] using h
  | cons kv rest ih =>
    unfold dictInsert at h
    by_cases hk : kv.1 = k
    · rw [if_pos hk] at h
      rcases List.mem_cons.mp h with h1 | h1
      · exact Or.inl h1
      · exact Or.inr (List.mem_cons_of_mem _ h1)
    · rw [if_neg hk] at h
      rcases List.mem_cons.mp h with h1 | h1
      · exact Or.inr (h1 ▸ List.mem_cons_self _ _)
      · rcases ih h1 with h2 | h2
        · exact Or.inl h2
        · exact Or.inr (List.mem_cons_of_mem _ h2)

theorem keys_dictInsert_mem {α : Type} {d : List (String × α)} {k : String}
    {v : α} {a : String} (h : a ∈ keysOf (dictInsert d k v)) :
    a = k ∨ a ∈ keysOf d := by
  rcases List.mem_map.mp h with ⟨x, hx, hxa⟩
  rcases mem_dictInsert hx with h1 | h1
  · left
    rw [← hxa, h1]
  · right
    exact hxa ▸ List.mem_map_of_mem Prod.fst h1

theorem keys_dictInsert_self {α : Type} (d : List (String × α)) (k : String)
    (v : α) : k ∈ keysOf (dictInsert d k v) := by
  induction d with
  | nil => simp [dictInsert, keysOf]
  | cons kv rest ih =>
    unfold dictInsert
    by_cases hk : kv.1 = k
    · rw [if_pos hk]
      simp [keysOf]
    · rw [if_neg hk]
      simpa [keysOf] using Or.inr ih

theorem keys_dictInsert_mono {α : Type} {d : List (String × α)} {a : String}
    (k : String) (v : α) (h : a ∈ keysOf d) :
    a ∈ keysOf (dictInsert d k v) := by
  induction d with
  | nil => simp [keysOf] at h
  | cons kv rest ih =>
    unfold dictInsert
    by_cases hk : kv.1 = k
    · rw [if_pos hk]
      rcases List.mem_cons.mp h with h1 | h1
      · simp [keysOf, h1 ▸ hk]
      · simpa [keysOf] using Or.inr h1
    · rw [if_neg hk]
      rcases List.mem_cons.mp h with h1 | h1
      · simp [keysOf, h1]
      · simpa [keysOf] using Or.inr (ih h1)

theorem dictGet?_dictInsert_self {α : Type} (d : List (String × α))
    (k : String) (v : α) : dictGet? (dictInsert d k v) k = some v := by
  induction d with
  | nil => simp [dictInsert, dictGet?]
  | cons kv rest ih =>
    unfold dictInsert
    by_cases hk : kv.1 = k
    · rw [if_pos hk]
      simp [dictGet?]
    · rw [if_neg hk]
      simpa [dictGet?, hk] using ih

theorem dictGet?_dictInsert_ne {α : Type} {k' k : String} (h : k' ≠ k)
    (d : List (String × α)) (v : α) :
    dictGet? (dictInsert d k' v) k = dictGet? d k := by
  induction d with
  | nil => simp [dictInsert, dictGet?, h]
  | cons kv rest ih =>
    unfold dictInsert
    by_cases hk : kv.1 = k'
    · rw [if_pos hk]
      simp [dictGet?, h, hk]
    · rw [if_neg hk]
      by_cases hk2 : kv.1 = k
      · simp [dictGet?, hk2]
      · simpa [dictGet?, hk2] using ih

theorem dictGet?_mem {α : Type} {d : List (String × α)} {k : String} {v : α}
    (h : dictGet? d k = some v) : (k, v) ∈ d := by
  induction d with
  | nil => simp [dictGet?] at h
  | cons kv rest ih =>
    unfold dictGet? at h
    by_cases hk : kv.1 = k
    · rw [if_pos hk] at h
      have hv : kv.2 = v := by simpa using h
      have : kv = (k, v) := by
        rw [← hk, ← hv]
      exact this ▸ List.mem_cons_self _ _
    · rw [if_neg hk] at h
      exact List.mem_cons_of_mem _ (ih h)

theorem mem_buildOutputLookupAux {x : String × (String × PropDef)}
    {defs : List (String × PropDef)} :
    ∀ {acc : List (String × (String × PropDef))},
      x ∈ buildOutputLookupAux acc defs →
      x ∈ acc ∨ ∃ kp ∈ defs, x = (kp.2.path, (kp.1, kp.2)) := by
  induction defs with
  | nil =>
    intro acc h
    exact Or.inl h
  | cons kp rest ih =>
    intro acc h
    rcases ih h with h1 | h1
    · rcases mem_dictInsert h1 with h2 | h2
      · exact Or.inr ⟨kp, List.mem_cons_self _ _, h2⟩
      · exact Or.inl h2
    · rcases h1 with ⟨kp', hkp', hx⟩
      exact Or.inr ⟨kp', List.mem_cons_of_mem _ hkp', hx⟩

theorem buildOutputLookupAux_get_preserve {P : String}
    {defs : List (String × PropDef)} (hne : ∀ kp ∈ defs, kp.2.path ≠ P) :
    ∀ (acc : List (String × (String × PropDef))),
      dictGet? (buildOutputLookupAux acc defs) P = dictGet? acc P := by
  induction defs with
  | nil =>
    intro acc
    rfl
  | cons kp rest ih =>
    intro acc
    have h1 : ∀ kp' ∈ rest, kp'.2.path ≠ P := fun kp' hm =>
      hne kp' (List.mem_cons_of_mem _ hm)
    have h2 : kp.2.path ≠ P := hne kp (List.mem_cons_self _ _)
    calc dictGet? (buildOutputLookupAux (dictInsert acc kp.2.path (kp.1, kp.2)) rest) P
        = dictGet? (dictInsert acc kp.2.path (kp.1, kp.2)) P := ih h1 _
      _ = dictGet? acc P := dictGet?_dictInsert_ne h2 _ _

theorem buildOutputLookupAux_get {defs : List (String × PropDef)}
    {kp : String × PropDef}
    (hnd : (defs.map (fun q => q.2.path)).Nodup) (hm : kp ∈ defs) :
    ∀ (acc : List (String × (String × PropDef))),
      dictGet? (buildOutputLookupAux acc defs) kp.2.path = some (kp.1, kp.2) := by
  induction defs with
  | nil => simp at hm
  | cons kp0 rest ih =>
    intro acc
    rw [List.map_cons, List.nodup_cons] at hnd
    rcases List.mem_cons.mp hm with h1 | h1
    · subst h1
      have hne : ∀ kp' ∈ rest, kp'.2.path ≠ kp.2.path := by
        intro kp' hkp' he
        exact hnd.1 (he ▸ List.mem_map_of_mem (fun q => q.2.path) hkp')
      calc dictGet? (buildOutputLookupAux (dictInsert acc kp.2.path (kp.1, kp.2)) rest) kp.2.path
          = dictGet? (dictInsert acc kp.2.path (kp.1, kp.2)) kp.2.path :=
            buildOutputLookupAux_get_preserve hne _
        _ = some (kp.1, kp.2) := dictGet?_dictInsert_self _ _ _
    · exact ih hnd.2 h1 _

theorem translate_keys_monotone {lk : List (String × (String × PropDef))}
    {props : List OutProp} :
    ∀ {acc out : List (String × Rat)} {a : String},
      translateOutputs lk acc props = .ok out → a ∈ keysOf acc →
      a ∈ keysOf out := by
  induction props with
  | nil =>
    intro acc out a h ha
    rw [show out = acc by simpa [translateOutputs] using h.symm]
    exact ha
  | cons p rest ih =>
    intro acc out a h ha
    unfold translateOutputs at h
    cases hg : dictGet? lk p.propertyPath with
    | none => rw [hg] at h; cases h
    | some ap =>
      rw [hg] at h
      exact ih h (keys_dictInsert_mono _ _ ha)

theorem translate_keys_sub {defs : List (String × PropDef)}
    {props : List OutProp} :
    ∀ {acc out : List (String × Rat)} {a : String},
      translateOutputs (buildOutputLookup defs) acc props = .ok out →
      a ∈ keysOf out → a ∈ keysOf acc ∨ a ∈ keysOf defs := by
  induction props with
  | nil =>
    intro acc out a h ha
    rw [show out = acc by simpa [translateOutputs] using h.symm] at ha
    exact Or.inl ha
  | cons p rest ih =>
    intro acc out a h ha
    unfold translateOutputs at h
    cases hg : dictGet? (buildOutputLookup defs) p.propertyPath with
    | none => rw [hg] at h; cases h
    | some ap =>
      rw [hg] at h
      rcases ih h ha with h1 | h1
      · rcases keys_dictInsert_mem h1 with h2 | h2
        · right
          rcases mem_buildOutputLookupAux (dictGet?_mem hg) with h3 | h3
          · cases h3
          · rcases h3 with ⟨kp, hkp, hx⟩
            have : ap = (kp.1, kp.2) := congrArg Prod.snd hx
            rw [h2, this]
            exact List.mem_map_of_mem Prod.fst hkp
        · exact Or.inl h2
      · exact Or.inr h1

theorem translate_ok_of_all_some {lk : List (String × (String × PropDef))}
    {props : List OutProp}
    (hall : ∀ p ∈ props, (dictGet? lk p.propertyPath).isSome = true) :
    ∀ (acc : List (String × Rat)),
      ∃ out, translateOutputs lk acc props = .ok out := by
  induction props with
  | nil =>
    intro acc
    exact ⟨acc, rfl⟩
  | cons p rest ih =>
    intro acc
    rcases Option.isSome_iff_exists.mp (hall p (List.mem_cons_self _ _)) with ⟨ap, hap⟩
    have hrest : ∀ q ∈ rest, (dictGet? lk q.propertyPath).isSome = true :=
      fun q hq => hall q (List.mem_cons_of_mem _ hq)
    rcases ih hrest (dictInsert acc ap.1 p.value) with ⟨out, hout⟩
    refine ⟨out, ?_⟩
    unfold translateOutputs
    rw [hap]
    exact hout

theorem translate_mem_of_covered {lk : List (String × (String × PropDef))}
    {props : List OutProp} {P a : String} {pd : PropDef}
    (hget : dictGet? lk P = some (a, pd)) :
    ∀ {acc out : List (String × Rat)},
      (∃ p ∈ props, p.propertyPath = P) →
      translateOutputs lk acc props = .ok out → a ∈ keysOf out := by
  induction props with
  | nil =>
    intro acc out hw h
    rcases hw with ⟨p, hp, _⟩
    cases hp
  | cons q rest ih =>
    intro acc out hw h
    unfold translateOutputs at h
    cases hg : dictGet? lk q.propertyPath with
    | none => rw [hg] at h; cases h
    | some ap =>
      rw [hg] at h
      by_cases hqP : q.propertyPath = P
      · have hap : ap = (a, pd) := by
          rw [hqP, hget] at hg
          exact (Option.some_inj.mp hg).symm
        have hself : a ∈ keysOf (dictInsert acc ap.1 q.value) := by
          rw [hap]
          exact keys_dictInsert_self _ _ _
        exact translate_keys_monotone h hself
      · rcases hw with ⟨p, hp, hpP⟩
        rcases List.mem_cons.mp hp with h1 | h1
        · exact absurd (h1 ▸ hpP) hqP
        · exact ih ⟨p, h1, hpP⟩ h

theorem translate_err_of_bad {lk : List (String × (String × PropDef))}
    {props : List OutProp} :
    ∀ (acc : List (String × Rat)),
      (∃ p ∈ props, dictGet? lk p.propertyPath = none) →
      ∃ P, translateOutputs lk acc props = .error (.keyError P) ∧
        dictGet? lk P = none := by
  induction props with
  | nil =>
    intro acc hw
    rcases hw with ⟨p, hp, _⟩
    cases hp
  | cons q rest ih =>
    intro acc hw
    cases hg : dictGet? lk q.propertyPath with
    | none =>
      refine ⟨q.propertyPath, ?_, hg⟩
      unfold translateOutputs
      rw [hg]
    | some ap =>
      rcases hw with ⟨p, hp, hpnone⟩
      rcases List.mem_cons.mp hp with h1 | h1
      · rw [h1] at hpnone
        rw [hpnone] at hg
        cases hg
      · rcases ih (dictInsert acc ap.1 q.value) ⟨p, h1, hpnone⟩ with ⟨P, hP, hPn⟩
        refine ⟨P, ?_, hPn⟩
        unfold translateOutputs
        rw [hg]
        exact hP

theorem countCloseCalls_append (l1 l2 : List Event) :
    countCloseCalls (l1 ++ l2) = countCloseCalls l1 + countCloseCalls l2 := by
  simp [countCloseCalls, List.countP_append]

theorem pollSessionLoop_closeFree (u : String) (l : List PollResp) :
    countCloseCalls (pollSessionLoop u l).2 = 0 := by
  induction l with
  | nil => simp [pollSessionLoop, countCloseCalls, isCloseCall]
  | cons r rest ih =>
    unfold pollSessionLoop
    split
    · simp [countCloseCalls, isCloseCall]
    · split
      · simpa [countCloseCalls, isCloseCall, List.countP_cons] using ih
      · split
        · simp [countCloseCalls, isCloseCall]
        · split
          · simp [countCloseCalls, isCloseCall]
          · simp [countCloseCalls, isCloseCall]

theorem close_state_state_session_closeFree (u : String) (r : DeleteResp) :
    countCloseCalls (close_state_state_session u r).2 = 0 := by
  simp [close_state_state_session, countCloseCalls, isCloseCall]

theorem countCloseCalls_nil : countCloseCalls [] = 0 := rfl

theorem countCloseCalls_cons (e : Event) (l : List Event) :
    countCloseCalls (e :: l) =
      countCloseCalls l + (if isCloseCall e then 1 else 0) :=
  List.countP_cons _ _ _

theorem open_steady_state_closeFree (c : CoFlow) (p : String) (a b : Nat)
    (s : OpenScript) :
    countCloseCalls (CoFlow.open_steady_state c p a b s).2 = 0 := by
  simp only [CoFlow.open_steady_state]
  by_cases h1 : s.createResp.status = 401 ∨ s.createResp.status = 405
  · simp [h1, countCloseCalls_cons, countCloseCalls_nil, isCloseCall]
  · rw [if_neg h1]
    by_cases h2 : s.createResp.status ≠ 202
    · rw [if_pos h2]
      simp [countCloseCalls_cons, countCloseCalls_nil, isCloseCall]
    · rw [if_neg h2]
      cases hloc : s.createResp.location with
      | none => simp [countCloseCalls_cons, countCloseCalls_nil, isCloseCall]
      | some loc =>
        simp only []
        cases hp : (pollSessionLoop (c.url ++ loc) s.pollResps).1 with
        | hang =>
          simp [hp, countCloseCalls_cons, countCloseCalls_append,
            countCloseCalls_nil, isCloseCall, pollSessionLoop_closeFree]
        | exc e =>
          simp [hp, countCloseCalls_cons, countCloseCalls_append,
            countCloseCalls_nil, isCloseCall, pollSessionLoop_closeFree]
        | ok u =>
          simp only [hp]
          cases hi : create_init_request p with
          | error e =>
            simp [hi, countCloseCalls_cons, countCloseCalls_append,
              countCloseCalls_nil, isCloseCall, pollSessionLoop_closeFree]
          | ok req =>
            simp only [hi]
            by_cases h3 : s.initResp.status ≠ 201
            · rw [if_pos h3]
              simp [close_state_state_session, countCloseCalls_cons,
                countCloseCalls_append, countCloseCalls_nil, isCloseCall,
                pollSessionLoop_closeFree]
            · rw [if_neg h3]
              simp [countCloseCalls_cons, countCloseCalls_append,
                countCloseCalls_nil, isCloseCall, pollSessionLoop_closeFree]
theorem runPollLoop_closeFree (u : String) (l : List RunPollResp) :
    countCloseCalls (runPollLoop u l).2 = 0 := by
  induction l with
  | nil => simp [runPollLoop, countCloseCalls, isCloseCall]
  | cons r rest ih =>
    unfold runPollLoop
    split
    · simp [countCloseCalls, isCloseCall]
    · split
      · simp [countCloseCalls, isCloseCall]
      · simpa [countCloseCalls, isCloseCall, List.countP_cons] using ih

theorem steadyState_run_closeFree (ss : SteadyState) (v : RunBody)
    (post : RunPostResp) (polls : List RunPollResp) :
    countCloseCalls (SteadyState.run ss v post polls).2 = 0 := by
  unfold SteadyState.run
  split
  · simp [countCloseCalls, isCloseCall]
  · simpa [countCloseCalls, isCloseCall, List.countP_cons] using
      runPollLoop_closeFree ss.steady_state_url polls

theorem steadyState_query_closeFree (ss : SteadyState) (req : QueryReqBody)
    (resp : QueryResp) :
    countCloseCalls (SteadyState.query ss req resp).2 = 0 := by
  unfold SteadyState.query
  split
  · simp [countCloseCalls, isCloseCall]
  · simp [countCloseCalls, isCloseCall]

theorem close_steady_state_events (c : CoFlow) (ss : SteadyState)
    (resp : CloseResp) :
    (CoFlow.close_steady_state c ss resp).2 =
      [Event.closeCall (ss.steady_state_url ++ "/session"),
       Event.httpDelete (ss.steady_state_url ++ "/session")] := by
  unfold CoFlow.close_steady_state
  split
  · rfl
  · rfl

theorem close_steady_state_count (c : CoFlow) (ss : SteadyState)
    (resp : CloseResp) :
    countCloseCalls (CoFlow.close_steady_state c ss resp).2 = 1 := by
  rw [close_steady_state_events]
  simp [countCloseCalls, isCloseCall]

theorem pollSessionLoop_headGet (u : String) (l : List PollResp) :
    ∃ t, (pollSessionLoop u l).2 = Event.httpGet u :: t := by
  cases l with
  | nil => exact ⟨[], rfl⟩
  | cons r rest =>
    unfold pollSessionLoop
    split
    · exact ⟨_, rfl⟩
    · split
      · exact ⟨_, rfl⟩
      · split
        · exact ⟨_, rfl⟩
        · split
          · exact ⟨_, rfl⟩
          · exact ⟨_, rfl⟩
/-- C2 counterexample: on the literal model path `repo/projA/studyB/caseC`
the code produces `repositoryName = ""`, not `"repo"`: without a leading
`//`, `urlsplit` leaves the network location empty, so the whole string is
the URL path and its first segment `repo` is skipped (components start at
index 1). -/
theorem c2_counterexample :
    create_init_request ("repo/projA/studyB/caseC") =
      .ok ⟨⟨"", "projA", "studyB"⟩, ⟨"SI", "caseC"⟩⟩ ∧
    ((("" : String) == "repo") = false) := by
  constructor
  · rfl
  · decide

/-- C2 (amended): for the model path `//repo/projA/studyB/caseC` (with the
URL authority marker `//`) the init request derives
`repositoryName="repo"`, `projectName="projA"`, `studyName="studyB"`,
`caseName="caseC"`; in general the repository name is the URL
network-location segment of the path (empty when the path has no `//`
authority marker) and the components at indices 1, 2 and 3 of the
`/`-split URL path are project, study and target case respectively. -/
theorem c2_init_request_amended :
    create_init_request ("//repo/projA/studyB/caseC") =
      .ok ⟨⟨"repo", "projA", "studyB"⟩, ⟨"SI", "caseC"⟩⟩ ∧
    ∀ (p : String) (r : InitRequest), create_init_request p = .ok r →
      r.initializationInfo.repositoryName = (urlsplit p).netloc ∧
      some r.initializationInfo.projectName = (pathComponents p).get? 1 ∧
      some r.initializationInfo.studyName = (pathComponents p).get? 2 ∧
      some r.editableInfo.caseName = (pathComponents p).get? 3 ∧
      r.editableInfo.systemOfUnits = "SI" := by
  constructor
  · rfl
  · intro p r h
    simp only [create_init_request] at h
    cases hg1 : (pathComponents p).get? 1 with
    | none => rw [hg1] at h; cases h
    | some v1 =>
      rw [hg1] at h
      cases hg2 : (pathComponents p).get? 2 with
      | none => rw [hg2] at h; cases h
      | some v2 =>
        rw [hg2] at h
        cases hg3 : (pathComponents p).get? 3 with
        | none => rw [hg3] at h; cases h
        | some v3 =>
          rw [hg3] at h
          cases h
          exact ⟨rfl, rfl, rfl, rfl, rfl⟩

/-- Witness for `c2_init_request_amended`: its general part applied to the
amended concrete path. -/
theorem c2_init_request_amended_witness :
    ("repo" : String) = (urlsplit ("//repo/projA/studyB/caseC")).netloc ∧
    (some ("projA" : String)) =
      (pathComponents ("//repo/projA/studyB/caseC")).get? 1 :=
  ⟨(c2_init_request_amended.2 _ ⟨⟨"repo", "projA", "studyB"⟩, ⟨"SI", "caseC"⟩⟩
      c2_init_request_amended.1).1,
   (c2_init_request_amended.2 _ ⟨⟨"repo", "projA", "studyB"⟩, ⟨"SI", "caseC"⟩⟩
      c2_init_request_amended.1).2.1⟩

/-- C6: a malformed model path whose URL path has fewer than three
`/`-separated components (restricted to bracket-free ASCII input, where the
unmodelled `urlsplit` host checks never fire) makes `create_init_request`
raise the underlying `IndexError` unchanged; no partially-filled init
request is returned. -/
theorem c6_malformed_path_raises (path : String)
    (hclean : ∀ ch ∈ path.toList, ch.val ≤ 127 ∧ ch ≠ '[' ∧ ch ≠ ']')
    (hlen : (pathComponents path).length < 3) :
    create_init_request path = .error .indexError := by
  have h2 : (pathComponents path).get? 2 = none :=
    List.get?_eq_none.mpr (by omega)
  simp only [create_init_request]
  cases hg1 : (pathComponents path).get? 1 with
  | none => rfl
  | some v1 => rw [h2]

/-- Witness for `c6_malformed_path_raises` at the two-segment path `a/b`. -/
theorem c6_malformed_path_raises_witness :
    create_init_request ("a/b") = .error .indexError :=
  c6_malformed_path_raises ("a/b") (by decide) (by decide)
theorem pending_value_eq : CoFlowSessionStatus.Pending.value = 100 := rfl

theorem running_value_eq : CoFlowSessionStatus.Running.value = 200 := rfl

theorem failed_value_eq : CoFlowSessionStatus.Failed.value = 300 := rfl

theorem pollSessionLoop_pending_cons (u : String) (x : PollResp)
    (l : List PollResp) (h200 : x.status = 200) (h100 : x.statusCode = 100) :
    pollSessionLoop u (x :: l) =
      ((pollSessionLoop u l).1,
        Event.httpGet u :: Event.sleep 1 :: (pollSessionLoop u l).2) := by
  simp only [pollSessionLoop]
  rw [if_neg (by simp [h200]), if_pos (by rw [pending_value_eq]; exact h100)]

theorem pollSessionLoop_failed_eval (u : String) (r : PollResp)
    (rest : List PollResp) (h200 : r.status = 200) (h300 : r.statusCode = 300) :
    pollSessionLoop u (r :: rest) =
      (.exc (.coFlowError ("Failed to create session: " ++
        lookup_coflow_status_code r.statusCode)), [Event.httpGet u]) := by
  simp only [pollSessionLoop]
  rw [if_neg (by simp [h200]),
    if_neg (by rw [pending_value_eq, h300]; decide),
    if_neg (by rw [running_value_eq, h300]; decide),
    if_pos (by rw [failed_value_eq]; exact h300)]

theorem pollSessionLoop_pending_fst (u : String) (pre l : List PollResp)
    (hpre : ∀ x ∈ pre, x.status = 200 ∧ x.statusCode = 100) :
    (pollSessionLoop u (pre ++ l)).1 = (pollSessionLoop u l).1 := by
  induction pre with
  | nil => rfl
  | cons x pre ih =>
    have hx := hpre x (List.mem_cons_self _ _)
    rw [List.cons_append, pollSessionLoop_pending_cons u x _ hx.1 hx.2]
    exact ih (fun y hy => hpre y (List.mem_cons_of_mem _ hy))

theorem pollSessionLoop_failed_truncate (u : String) (pre rest : List PollResp)
    (r : PollResp) (hpre : ∀ x ∈ pre, x.status = 200 ∧ x.statusCode = 100)
    (h200 : r.status = 200) (h300 : r.statusCode = 300) :
    pollSessionLoop u (pre ++ r :: rest) = pollSessionLoop u (pre ++ [r]) := by
  induction pre with
  | nil =>
    rw [List.nil_append, List.nil_append,
      pollSessionLoop_failed_eval u r rest h200 h300,
      pollSessionLoop_failed_eval u r [] h200 h300]
  | cons x pre ih =>
    have hx := hpre x (List.mem_cons_self _ _)
    rw [List.cons_append, List.cons_append,
      pollSessionLoop_pending_cons u x _ hx.1 hx.2,
      pollSessionLoop_pending_cons u x _ hx.1 hx.2,
      ih (fun y hy => hpre y (List.mem_cons_of_mem _ hy))]

/-- C5: in the session-status polling loop, the poll sequence with
`statusCode`s 100 (Pending), 100 (Pending), 200 (Running) performs exactly
two sleep/retry cycles before leaving the loop; after any run of Pending
polls, a Failed (300) status raises `CoFlowError` at once, with no further
polls (the remaining script is irrelevant); and any status code outside
Pending/Running/Failed also raises `CoFlowError`. -/
theorem c5_session_status_polling (u : String) :
    (pollSessionLoop u [⟨200, 100⟩, ⟨200, 100⟩, ⟨200, 200⟩] =
      (.ok (), [Event.httpGet u, Event.sleep 1, Event.httpGet u,
        Event.sleep 1, Event.httpGet u])) ∧
    (∀ (pre rest : List PollResp) (r : PollResp),
      (∀ x ∈ pre, x.status = 200 ∧ x.statusCode = 100) →
      r.status = 200 → r.statusCode = 300 →
      pollSessionLoop u (pre ++ r :: rest) = pollSessionLoop u (pre ++ [r]) ∧
      (pollSessionLoop u (pre ++ [r])).1 =
        .exc (.coFlowError ("Failed to create session: " ++
          lookup_coflow_status_code 300))) ∧
    (∀ (rest : List PollResp) (r : PollResp),
      r.status = 200 → r.statusCode ≠ 100 → r.statusCode ≠ 200 →
      r.statusCode ≠ 300 →
      (pollSessionLoop u (r :: rest)).1 =
        .exc (.coFlowError ("Unknown error: " ++
          lookup_coflow_status_code r.statusCode))) := by
  refine ⟨?_, ?_, ?_⟩
  · rfl
  · intro pre rest r hpre h200 h300
    refine ⟨pollSessionLoop_failed_truncate u pre rest r hpre h200 h300, ?_⟩
    rw [pollSessionLoop_pending_fst u pre [r] hpre,
      pollSessionLoop_failed_eval u r [] h200 h300, h300]
  · intro rest r h200 hn100 hn200 hn300
    simp only [pollSessionLoop]
    rw [if_neg (by simp [h200]),
      if_neg (by rw [pending_value_eq]; exact hn100),
      if_neg (by rw [running_value_eq]; exact hn200),
      if_neg (by rw [failed_value_eq]; exact hn300)]

/-- Witness for `c5_session_status_polling`: the Failed and unknown-status
parts applied to concrete poll scripts. -/
theorem c5_session_status_polling_witness :
    (pollSessionLoop ("su") ([⟨200, 100⟩] ++ (⟨200, 300⟩ : PollResp) ::
        [⟨200, 100⟩, ⟨200, 100⟩]) =
      pollSessionLoop ("su") ([⟨200, 100⟩] ++ [⟨200, 300⟩])) ∧
    ((pollSessionLoop ("su") ((⟨200, 999⟩ : PollResp) :: [])).1 =
      .exc (.coFlowError ("Unknown error: " ++
        lookup_coflow_status_code 999))) :=
  ⟨((c5_session_status_polling ("su")).2.1 [⟨200, 100⟩] [⟨200, 100⟩, ⟨200, 100⟩]
      ⟨200, 300⟩ (by decide) rfl rfl).1,
   (c5_session_status_polling ("su")).2.2 [] ⟨200, 999⟩ rfl (by decide)
      (by decide) (by decide)⟩
theorem runPollLoop_nonterminal_cons (u : String) (r : RunPollResp)
    (rest : List RunPollResp) (h200 : r.status = 200)
    (ht : ¬(r.runStatus = "Succeeded" ∨ r.runStatus = "Failed")) :
    runPollLoop u (r :: rest) =
      ((runPollLoop u rest).1,
        Event.httpGet (u ++ "/run") :: Event.sleep 1 ::
          (runPollLoop u rest).2) := by
  simp only [runPollLoop]
  rw [if_neg (by simp [h200]), if_neg ht]

theorem runPollLoop_terminal_eval (u : String) (r : RunPollResp)
    (rest : List RunPollResp) (h200 : r.status = 200)
    (ht : r.runStatus = "Succeeded" ∨ r.runStatus = "Failed") :
    runPollLoop u (r :: rest) = (.ok (), [Event.httpGet (u ++ "/run")]) := by
  simp only [runPollLoop]
  rw [if_neg (by simp [h200]), if_pos ht]

theorem runPollLoop_succ_fail_eq (u : String) (pre r1 r2 : List RunPollResp)
    (m1 m2 t1 t2 : String) :
    runPollLoop u (pre ++ (⟨200, "Succeeded", m1, t1⟩ : RunPollResp) :: r1) =
      runPollLoop u (pre ++ (⟨200, "Failed", m2, t2⟩ : RunPollResp) :: r2) := by
  induction pre with
  | nil =>
    rw [List.nil_append, List.nil_append,
      runPollLoop_terminal_eval u _ r1 rfl (Or.inl rfl),
      runPollLoop_terminal_eval u _ r2 rfl (Or.inr rfl)]
  | cons x pre ih =>
    rw [List.cons_append, List.cons_append]
    by_cases hs : x.status ≠ 200
    · simp only [runPollLoop]
      rw [if_pos hs, if_pos hs]
    · have hs' : x.status = 200 := by simpa using hs
      by_cases ht : x.runStatus = "Succeeded" ∨ x.runStatus = "Failed"
      · rw [runPollLoop_terminal_eval u x _ hs' ht,
          runPollLoop_terminal_eval u x _ hs' ht]
      · rw [runPollLoop_nonterminal_cons u x _ hs' ht,
          runPollLoop_nonterminal_cons u x _ hs' ht, ih]

/-- C8: the run-status polling loop of `SteadyState.run` sleeps exactly one
time unit between consecutive polls; given HTTP 200, the loop terminates at
the current poll exactly when the returned status is `Succeeded` or
`Failed`; and `SteadyState.run` produces the very same result (outcome and
events) whether the terminal status it reaches is `Succeeded` or `Failed` -
the return value does not distinguish them. -/
theorem c8_run_status_polling :
    (∀ (u : String) (r : RunPollResp) (rest : List RunPollResp),
      r.status = 200 → ¬(r.runStatus = "Succeeded" ∨ r.runStatus = "Failed") →
      runPollLoop u (r :: rest) =
        ((runPollLoop u rest).1,
          Event.httpGet (u ++ "/run") :: Event.sleep 1 ::
            (runPollLoop u rest).2)) ∧
    (∀ (u : String) (r : RunPollResp) (rest : List RunPollResp),
      r.status = 200 →
      (runPollLoop u (r :: rest) = (.ok (), [Event.httpGet (u ++ "/run")]) ↔
        (r.runStatus = "Succeeded" ∨ r.runStatus = "Failed"))) ∧
    (∀ (ss : SteadyState) (v : RunBody) (post : RunPostResp)
        (pre r1 r2 : List RunPollResp) (m1 m2 t1 t2 : String),
      SteadyState.run ss v post
          (pre ++ (⟨200, "Succeeded", m1, t1⟩ : RunPollResp) :: r1) =
        SteadyState.run ss v post
          (pre ++ (⟨200, "Failed", m2, t2⟩ : RunPollResp) :: r2)) := by
  refine ⟨runPollLoop_nonterminal_cons, ?_, ?_⟩
  · intro u r rest h200
    constructor
    · intro h
      by_contra ht
      rw [runPollLoop_nonterminal_cons u r rest h200 ht] at h
      have h2 := congrArg Prod.snd h
      simp at h2
    · exact runPollLoop_terminal_eval u r rest h200
  · intro ss v post pre r1 r2 m1 m2 t1 t2
    simp only [SteadyState.run]
    by_cases hp : post.status ≠ 202
    · rw [if_pos hp, if_pos hp]
    · rw [if_neg hp, if_neg hp, runPollLoop_succ_fail_eq]

/-- Witness for `c8_run_status_polling`: the terminal-iff part and the
Succeeded/Failed indistinguishability applied to concrete scripts. -/
theorem c8_run_status_polling_witness :
    (runPollLoop ("w") [(⟨200, "Succeeded", "m", ""⟩ : RunPollResp)] =
      (.ok (), [Event.httpGet ("w" ++ "/run")])) ∧
    (SteadyState.run ⟨"b", "k"⟩ ⟨[]⟩ ⟨202, ""⟩
        ([(⟨200, "Running", "m0", ""⟩ : RunPollResp)] ++
          (⟨200, "Succeeded", "m1", ""⟩ : RunPollResp) :: []) =
      SteadyState.run ⟨"b", "k"⟩ ⟨[]⟩ ⟨202, ""⟩
        ([(⟨200, "Running", "m0", ""⟩ : RunPollResp)] ++
          (⟨200, "Failed", "m2", ""⟩ : RunPollResp) :: [])) :=
  ⟨(c8_run_status_polling.2.1 ("w") ⟨200, "Succeeded", "m", ""⟩ [] rfl).mpr
      (Or.inl rfl),
   c8_run_status_polling.2.2 ⟨"b", "k"⟩ ⟨[]⟩ ⟨202, ""⟩
      [⟨200, "Running", "m0", ""⟩] [] [] "m1" "m2" "" ""⟩
/-- C4: for the create-session response of `open_steady_state`, status 401
or 405 raises `AuthError`; status 202 (with the `Location` header naming
the status resource) proceeds to polling that resource - the next event
after the create POST is a GET of the location URL; any other status raises
`SessionError`. -/
theorem c4_create_session_status (c : CoFlow) (p : String) (a b : Nat)
    (s : OpenScript) :
    ((s.createResp.status = 401 ∨ s.createResp.status = 405) →
      CoFlow.open_steady_state c p a b s =
        (.exc (.authError ("401 UNAUTHORIZED error: try updating your API Key")),
          [Event.httpPost (c.url ++ "/sessions")])) ∧
    (∀ loc, s.createResp.status = 202 → s.createResp.location = some loc →
      ∃ t, (CoFlow.open_steady_state c p a b s).2 =
        Event.httpPost (c.url ++ "/sessions") ::
          Event.httpGet (c.url ++ loc) :: t) ∧
    (s.createResp.status ≠ 401 → s.createResp.status ≠ 405 →
      s.createResp.status ≠ 202 →
      ∃ msg, (CoFlow.open_steady_state c p a b s).1 =
        .exc (.sessionError msg)) := by
  refine ⟨?_, ?_, ?_⟩
  · intro h
    simp only [CoFlow.open_steady_state]
    rw [if_pos h]
  · intro loc h2 hloc
    have h1 : ¬(s.createResp.status = 401 ∨ s.createResp.status = 405) := by
      rw [h2]
      decide
    have h2' : ¬(s.createResp.status ≠ 202) := by
      simp [h2]
    simp only [CoFlow.open_steady_state]
    rw [if_neg h1, if_neg h2', hloc]
    rcases pollSessionLoop_headGet (c.url ++ loc) s.pollResps with ⟨t0, ht⟩
    cases hp : (pollSessionLoop (c.url ++ loc) s.pollResps).1 with
    | hang =>
      simp only [hp]
      exact ⟨t0, by rw [ht]⟩
    | exc e =>
      simp only [hp]
      exact ⟨t0, by rw [ht]⟩
    | ok u =>
      simp only [hp]
      cases hi : create_init_request p with
      | error e =>
        simp only [hi]
        exact ⟨t0 ++ [Event.sleep 3], by rw [ht]; simp⟩
      | ok req =>
        simp only [hi]
        by_cases h3 : s.initResp.status ≠ 201
        · rw [if_pos h3]
          simp only [close_state_state_session]
          exact ⟨t0 ++ Event.sleep 3 ::
            Event.httpPost (c.url ++ pyReplace loc ("/status") ("") ++
              "/current/api/v1/steady-state" ++ "/session") ::
            [Event.httpDelete (c.url ++ pyReplace loc ("/status") ("") ++
              "/current/api/v1/steady-state" ++ "/session")],
            by rw [ht]; simp⟩
        · rw [if_neg h3]
          exact ⟨t0 ++ [Event.sleep 3,
            Event.httpPost (c.url ++ pyReplace loc ("/status") ("") ++
              "/current/api/v1/steady-state" ++ "/session")],
            by rw [ht]; simp⟩
  · intro h401 h405 h202
    have h1 : ¬(s.createResp.status = 401 ∨ s.createResp.status = 405) := by
      simp [h401, h405]
    simp only [CoFlow.open_steady_state]
    rw [if_neg h1, if_pos h202]
    exact ⟨_, rfl⟩

/-- Witness for `c4_create_session_status`: the three status classes at
concrete create-session responses. -/
theorem c4_create_session_status_witness :
    (CoFlow.open_steady_state ⟨"u", "k"⟩ ("//r/a/b/c") 1 1024
        ⟨⟨401, none, ""⟩, [], ⟨201⟩, ⟨202⟩⟩ =
      (.exc (.authError ("401 UNAUTHORIZED error: try updating your API Key")),
        [Event.httpPost ("u" ++ "/sessions")])) ∧
    (∃ t, (CoFlow.open_steady_state ⟨"u", "k"⟩ ("//r/a/b/c") 1 1024
        ⟨⟨202, some "/sessions/9/status", ""⟩, [], ⟨201⟩, ⟨202⟩⟩).2 =
      Event.httpPost ("u" ++ "/sessions") ::
        Event.httpGet ("u" ++ "/sessions/9/status") :: t) ∧
    (∃ msg, (CoFlow.open_steady_state ⟨"u", "k"⟩ ("//r/a/b/c") 1 1024
        ⟨⟨500, none, "boom"⟩, [], ⟨201⟩, ⟨202⟩⟩).1 =
      .exc (.sessionError msg)) :=
  ⟨(c4_create_session_status ⟨"u", "k"⟩ ("//r/a/b/c") 1 1024
      ⟨⟨401, none, ""⟩, [], ⟨201⟩, ⟨202⟩⟩).1 (Or.inl rfl),
   (c4_create_session_status ⟨"u", "k"⟩ ("//r/a/b/c") 1 1024
      ⟨⟨202, some "/sessions/9/status", ""⟩, [], ⟨201⟩, ⟨202⟩⟩).2.1
      ("/sessions/9/status") rfl rfl,
   (c4_create_session_status ⟨"u", "k"⟩ ("//r/a/b/c") 1 1024
      ⟨⟨500, none, "boom"⟩, [], ⟨201⟩, ⟨202⟩⟩).2.2 (by decide) (by decide)
      (by decide)⟩

/-- C3 (code bug): when the init POST returns a non-201 status (here 500),
the cleanup DELETE is attempted, but `_close_state_state_session` then
evaluates `response.codes.OK` - a `requests.Response` has no `codes`
attribute (the author meant `requests.codes`) - so `AttributeError`
propagates to the caller instead of the cleanup failure being swallowed and
`SessionError` being raised, contradicting the spec's (clearly intended)
best-effort-cleanup behavior. -/
theorem c3_init_cleanup_bug :
    (CoFlow.open_steady_state ⟨"u", "k"⟩ ("//r/a/b/c") 1 1024
        ⟨⟨202, some "/sessions/1/status", ""⟩, [⟨200, 200⟩], ⟨500⟩, ⟨202⟩⟩).1 =
      .exc (.attributeError ("Response object has no attribute codes")) ∧
    Event.httpDelete ("u/sessions/1/current/api/v1/steady-state/session") ∈
      (CoFlow.open_steady_state ⟨"u", "k"⟩ ("//r/a/b/c") 1 1024
        ⟨⟨202, some "/sessions/1/status", ""⟩, [⟨200, 200⟩], ⟨500⟩, ⟨202⟩⟩).2 := by
  constructor
  · rfl
  · have hevents : (CoFlow.open_steady_state ⟨"u", "k"⟩ ("//r/a/b/c") 1 1024
        ⟨⟨202, some "/sessions/1/status", ""⟩, [⟨200, 200⟩], ⟨500⟩, ⟨202⟩⟩).2 =
        [Event.httpPost ("u/sessions"), Event.httpGet ("u/sessions/1/status"),
          Event.sleep 3,
          Event.httpPost ("u/sessions/1/current/api/v1/steady-state/session"),
          Event.httpDelete ("u/sessions/1/current/api/v1/steady-state/session")] := by
      decide
    rw [hevents]
    simp
theorem closeCount_of_append_close (u : String) (base evc : List Event)
    (hbase : countCloseCalls base = 0)
    (hcev : evc = [Event.closeCall u, Event.httpDelete u]) :
    countCloseCalls (base ++ evc) = 1 ∧ Event.closeCall u ∈ base ++ evc := by
  constructor
  · rw [countCloseCalls_append, hbase, hcev]
    rfl
  · rw [hcev]
    exact List.mem_append_right _ (List.mem_cons_self _ _)

/-- C1: whenever the input payload is built and `open_steady_state` returns
a session, every exit path of `SteadyStateModel.run` issues exactly one
`close_steady_state` call, on that session: when run and query both
succeed, and when run, query or result translation raises. -/
theorem c1_exactly_one_close (m : SteadyStateModel) (v : List (String × Rat))
    (s : FacadeScript) (ip : List InProp) (ss : SteadyState)
    (evs : List Event)
    (hp : buildInputPayload m.input_defs v = .ok ip)
    (ho : CoFlow.open_steady_state m.client m.model_path 1 1024 s.openScript =
      (.ok ss, evs))
    (hnh : (SteadyStateModel.run m v s).1 ≠ .hang) :
    countCloseCalls (SteadyStateModel.run m v s).2 = 1 ∧
    Event.closeCall (ss.steady_state_url ++ "/session") ∈
      (SteadyStateModel.run m v s).2 := by
  have hevsfree : countCloseCalls evs = 0 := by
    have h := open_steady_state_closeFree m.client m.model_path 1 1024 s.openScript
    rw [ho] at h
    exact h
  rcases hc : CoFlow.close_steady_state m.client ss s.closeResp with ⟨oc, evc⟩
  have hcev : evc = [Event.closeCall (ss.steady_state_url ++ "/session"),
      Event.httpDelete (ss.steady_state_url ++ "/session")] := by
    have h := close_steady_state_events m.client ss s.closeResp
    rw [hc] at h
    exact h
  unfold SteadyStateModel.run at hnh ⊢
  rw [hp] at hnh ⊢
  unfold facadeTry at hnh ⊢
  rw [ho] at hnh ⊢
  simp only [] at hnh ⊢
  generalize hr : SteadyState.run ss ⟨ip⟩ s.runPost s.runPolls = r2 at hnh ⊢
  obtain ⟨o2, evs2⟩ := r2
  have hevs2free : countCloseCalls evs2 = 0 := by
    have h := steadyState_run_closeFree ss ⟨ip⟩ s.runPost s.runPolls
    rw [hr] at h
    exact h
  cases o2 with
  | hang => exact absurd rfl hnh
  | exc e =>
    simp only [facadeFinally]
    rw [hc]
    cases oc <;>
      exact closeCount_of_append_close _ _ _
        (by rw [countCloseCalls_append, hevsfree, hevs2free]) hcev
  | ok u2 =>
    generalize hq : SteadyState.query ss ⟨buildOutputPayload m.output_defs⟩
        s.queryResp = r3 at hnh ⊢
    obtain ⟨o3, evs3⟩ := r3
    have hevs3free : countCloseCalls evs3 = 0 := by
      have h := steadyState_query_closeFree ss
        ⟨buildOutputPayload m.output_defs⟩ s.queryResp
      rw [hq] at h
      exact h
    have hbase : countCloseCalls (evs ++ evs2 ++ evs3) = 0 := by
      rw [countCloseCalls_append, countCloseCalls_append, hevsfree, hevs2free,
        hevs3free]
    cases o3 with
    | hang => exact absurd rfl hnh
    | exc e3 =>
      simp only [facadeFinally]
      rw [hc]
      cases oc <;> exact closeCount_of_append_close _ _ _ hbase hcev
    | ok body =>
      cases htr : translateOutputs (buildOutputLookup m.output_defs) []
          body.properties with
      | error e4 =>
        simp only [facadeFinally]
        simp only [htr]
        rw [hc]
        cases oc <;> exact closeCount_of_append_close _ _ _ hbase hcev
      | ok out =>
        simp only [facadeFinally]
        simp only [htr]
        rw [hc]
        cases oc <;> exact closeCount_of_append_close _ _ _ hbase hcev

/-- C9: when the input payload is built but `open_steady_state` itself
raises (no session opened), the `finally` block of `SteadyStateModel.run`
reads the never-assigned local variable `model`, so the call fails with
`UnboundLocalError` and zero close calls are issued. -/
theorem c9_unbound_local_on_open_failure (m : SteadyStateModel)
    (v : List (String × Rat)) (s : FacadeScript) (ip : List InProp)
    (e : PyExc) (evs : List Event)
    (hp : buildInputPayload m.input_defs v = .ok ip)
    (ho : CoFlow.open_steady_state m.client m.model_path 1 1024 s.openScript =
      (.exc e, evs)) :
    (SteadyStateModel.run m v s).1 =
      .exc (.unboundLocalError
        ("cannot access local variable model where it is not associated with a value")) ∧
    countCloseCalls (SteadyStateModel.run m v s).2 = 0 := by
  have hevsfree : countCloseCalls evs = 0 := by
    have h := open_steady_state_closeFree m.client m.model_path 1 1024 s.openScript
    rw [ho] at h
    exact h
  unfold SteadyStateModel.run
  rw [hp]
  unfold facadeTry
  rw [ho]
  simp [facadeFinally, countCloseCalls_append, countCloseCalls_nil, hevsfree]
theorem query_ok_eval (ss : SteadyState) (req : QueryReqBody)
    (resp : QueryResp) (h : resp.status = 200) :
    SteadyState.query ss req resp =
      (.ok ⟨resp.properties⟩,
        [Event.httpPost (ss.steady_state_url ++ "/query")]) := by
  simp only [SteadyState.query]
  rw [if_neg (by simp [h])]

theorem close_ok_eval (c : CoFlow) (ss : SteadyState) (resp : CloseResp)
    (h : resp.status = 202) :
    CoFlow.close_steady_state c ss resp =
      (.ok (), [Event.closeCall (ss.steady_state_url ++ "/session"),
        Event.httpDelete (ss.steady_state_url ++ "/session")]) := by
  simp only [CoFlow.close_steady_state]
  rw [if_neg (by simp [h])]

theorem facade_happy_path (m : SteadyStateModel) (v : List (String × Rat))
    (s : FacadeScript) (ip : List InProp) (ss : SteadyState)
    (evs evs2 : List Event)
    (hp : buildInputPayload m.input_defs v = .ok ip)
    (ho : CoFlow.open_steady_state m.client m.model_path 1 1024 s.openScript =
      (.ok ss, evs))
    (hr : SteadyState.run ss ⟨ip⟩ s.runPost s.runPolls = (.ok (), evs2))
    (hq : s.queryResp.status = 200)
    (hcl : s.closeResp.status = 202) :
    (SteadyStateModel.run m v s).1 =
      (match translateOutputs (buildOutputLookup m.output_defs) []
          s.queryResp.properties with
        | .error e => Outcome.exc e
        | .ok out => Outcome.ok out) := by
  unfold SteadyStateModel.run
  rw [hp]
  unfold facadeTry
  rw [ho]
  simp only []
  simp only [hr]
  simp only [query_ok_eval ss ⟨buildOutputPayload m.output_defs⟩ s.queryResp hq]
  cases htr : translateOutputs (buildOutputLookup m.output_defs) []
      s.queryResp.properties with
  | error e =>
    simp only [htr, facadeFinally]
    simp only [close_ok_eval m.client ss s.closeResp hcl]
  | ok out =>
    simp only [htr, facadeFinally]
    simp only [close_ok_eval m.client ss s.closeResp hcl]

theorem facade_ok_translate (m : SteadyStateModel) (v : List (String × Rat))
    (s : FacadeScript) (out : List (String × Rat))
    (h : (SteadyStateModel.run m v s).1 = .ok out) :
    translateOutputs (buildOutputLookup m.output_defs) []
      s.queryResp.properties = .ok out := by
  unfold SteadyStateModel.run at h
  cases hp : buildInputPayload m.input_defs v with
  | error e =>
    rw [hp] at h
    simp at h
  | ok ip =>
    rw [hp] at h
    unfold facadeTry at h
    rcases ho : CoFlow.open_steady_state m.client m.model_path 1 1024
        s.openScript with ⟨o1, evs1⟩
    rw [ho] at h
    cases o1 with
    | exc e =>
      rcases hfin : facadeFinally none m.client s.closeResp with ⟨of, evf⟩
      simp only [hfin] at h
      cases of <;> simp at h
    | hang => simp at h
    | ok ss =>
      simp only [] at h
      rcases hr : SteadyState.run ss ⟨ip⟩ s.runPost s.runPolls with ⟨o2, evs2⟩
      simp only [hr] at h
      cases o2 with
      | exc e =>
        rcases hfin : facadeFinally (some ss) m.client s.closeResp with ⟨of, evf⟩
        simp only [hfin] at h
        cases of <;> simp at h
      | hang => simp at h
      | ok u =>
        rcases hq : SteadyState.query ss ⟨buildOutputPayload m.output_defs⟩
            s.queryResp with ⟨o3, evs3⟩
        simp only [hq] at h
        cases o3 with
        | exc e =>
          rcases hfin : facadeFinally (some ss) m.client s.closeResp with ⟨of, evf⟩
          simp only [hfin] at h
          cases of <;> simp at h
        | hang => simp at h
        | ok body =>
          have hbody : body = ⟨s.queryResp.properties⟩ := by
            by_cases hqs : s.queryResp.status ≠ 200
            · simp only [SteadyState.query] at hq
              rw [if_pos hqs] at hq
              simp at hq
            · simp only [SteadyState.query] at hq
              rw [if_neg hqs] at hq
              have h1 := congrArg Prod.fst hq
              simp only [] at h1
              exact (Outcome.ok.injEq _ _ ▸ h1).symm
          subst hbody
          cases htr : translateOutputs (buildOutputLookup m.output_defs) []
              (QueryBody.mk s.queryResp.properties).properties with
          | error e4 =>
            simp only [facadeFinally] at h
            simp only [htr] at h
            rcases hc : CoFlow.close_steady_state m.client ss s.closeResp with
              ⟨oc, evc⟩
            simp only [hc] at h
            cases oc <;> simp at h
          | ok out2 =>
            simp only [facadeFinally] at h
            simp only [htr] at h
            rcases hc : CoFlow.close_steady_state m.client ss s.closeResp with
              ⟨oc, evc⟩
            simp only [hc] at h
            cases oc with
            | ok u3 =>
              simp only [] at h
              simp at h
              rw [h]
            | exc e5 => simp at h
            | hang => simp at h
/-- C10: if, after a successful open and run and an HTTP-200 query, the
query response contains a properties entry whose `propertyPath` is not a
key of the path-keyed lookup built from `output_defs`, the result
translation of `SteadyStateModel.run` raises `KeyError` for such an
undeclared path instead of ignoring the entry. -/
theorem c10_undeclared_path_keyerror (m : SteadyStateModel)
    (v : List (String × Rat)) (s : FacadeScript) (ip : List InProp)
    (ss : SteadyState) (evs evs2 : List Event)
    (hp : buildInputPayload m.input_defs v = .ok ip)
    (ho : CoFlow.open_steady_state m.client m.model_path 1 1024 s.openScript =
      (.ok ss, evs))
    (hr : SteadyState.run ss ⟨ip⟩ s.runPost s.runPolls = (.ok (), evs2))
    (hq : s.queryResp.status = 200)
    (hcl : s.closeResp.status = 202)
    (hbad : ∃ p ∈ s.queryResp.properties,
      dictGet? (buildOutputLookup m.output_defs) p.propertyPath = none) :
    ∃ P, (SteadyStateModel.run m v s).1 = .exc (.keyError P) ∧
      dictGet? (buildOutputLookup m.output_defs) P = none := by
  rcases translate_err_of_bad ([]) hbad with ⟨P, hP, hPn⟩
  refine ⟨P, ?_, hPn⟩
  rw [facade_happy_path m v s ip ss evs evs2 hp ho hr hq hcl, hP]

/-- C7 (amended): the key set of the output mapping returned by
`SteadyStateModel.run` is always a subset of the declared output alias set
(an undeclared returned path raises instead of adding a key); it equals the
declared alias set exactly when the declared output paths are pairwise
distinct and the query response's property paths are exactly the declared
ones (every returned path is declared, and every declared path is
returned), as when the service echoes the request. -/
theorem c7_output_keys_amended (m : SteadyStateModel)
    (v : List (String × Rat)) (s : FacadeScript) :
    (∀ (out : List (String × Rat)) (a : String),
      (SteadyStateModel.run m v s).1 = .ok out →
      a ∈ keysOf out → a ∈ keysOf m.output_defs) ∧
    (∀ (ip : List InProp) (ss : SteadyState) (evs evs2 : List Event),
      buildInputPayload m.input_defs v = .ok ip →
      CoFlow.open_steady_state m.client m.model_path 1 1024 s.openScript =
        (.ok ss, evs) →
      SteadyState.run ss ⟨ip⟩ s.runPost s.runPolls = (.ok (), evs2) →
      s.queryResp.status = 200 →
      s.closeResp.status = 202 →
      (m.output_defs.map (fun q => q.2.path)).Nodup →
      (∀ p ∈ s.queryResp.properties,
        (dictGet? (buildOutputLookup m.output_defs) p.propertyPath).isSome =
          true) →
      (∀ kp ∈ m.output_defs, ∃ p ∈ s.queryResp.properties,
        p.propertyPath = kp.2.path) →
      ∃ out, (SteadyStateModel.run m v s).1 = .ok out ∧
        ∀ a, a ∈ keysOf out ↔ a ∈ keysOf m.output_defs) := by
  constructor
  · intro out a h ha
    have htr := facade_ok_translate m v s out h
    rcases translate_keys_sub htr ha with h1 | h1
    · simp [keysOf] at h1
    · exact h1
  · intro ip ss evs evs2 hp ho hr hq hcl hnd hnoextra hcover
    rcases translate_ok_of_all_some hnoextra ([]) with ⟨out, htr⟩
    refine ⟨out, ?_, ?_⟩
    · rw [facade_happy_path m v s ip ss evs evs2 hp ho hr hq hcl, htr]
    · intro a
      constructor
      · intro ha
        rcases translate_keys_sub htr ha with h1 | h1
        · simp [keysOf] at h1
        · exact h1
      · intro ha
        rcases List.mem_map.mp ha with ⟨kp, hkp, hkpa⟩
        have hget : dictGet? (buildOutputLookup m.output_defs) kp.2.path =
            some (kp.1, kp.2) := buildOutputLookupAux_get hnd hkp []
        rcases hcover kp hkp with ⟨p, hpmem, hpeq⟩
        exact hkpa ▸ translate_mem_of_covered hget ⟨p, hpmem, hpeq⟩ htr
/-- Witness for `c1_exactly_one_close`: a concrete one-input one-output
model against a fully successful scripted service. -/
theorem c1_exactly_one_close_witness :
    countCloseCalls (SteadyStateModel.run
      ⟨⟨"u", "k"⟩, "//r/a/b/c", [("x", ⟨"p", "u1"⟩)], [("bhp", ⟨"q", "psi"⟩)]⟩
      [("x", 1)]
      ⟨⟨⟨202, some "/sessions/1/status", ""⟩, [⟨200, 200⟩], ⟨201⟩, ⟨202⟩⟩,
        ⟨202, ""⟩, [⟨200, "Succeeded", "done", ""⟩],
        ⟨200, "", [⟨"q", "psi", 2⟩]⟩, ⟨202, ""⟩⟩).2 = 1 ∧
    Event.closeCall ("u/sessions/1/current/api/v1/steady-state" ++ "/session") ∈
      (SteadyStateModel.run
        ⟨⟨"u", "k"⟩, "//r/a/b/c", [("x", ⟨"p", "u1"⟩)], [("bhp", ⟨"q", "psi"⟩)]⟩
        [("x", 1)]
        ⟨⟨⟨202, some "/sessions/1/status", ""⟩, [⟨200, 200⟩], ⟨201⟩, ⟨202⟩⟩,
          ⟨202, ""⟩, [⟨200, "Succeeded", "done", ""⟩],
          ⟨200, "", [⟨"q", "psi", 2⟩]⟩, ⟨202, ""⟩⟩).2 :=
  c1_exactly_one_close
    ⟨⟨"u", "k"⟩, "//r/a/b/c", [("x", ⟨"p", "u1"⟩)], [("bhp", ⟨"q", "psi"⟩)]⟩
    [("x", 1)]
    ⟨⟨⟨202, some "/sessions/1/status", ""⟩, [⟨200, 200⟩], ⟨201⟩, ⟨202⟩⟩,
      ⟨202, ""⟩, [⟨200, "Succeeded", "done", ""⟩],
      ⟨200, "", [⟨"q", "psi", 2⟩]⟩, ⟨202, ""⟩⟩
    [⟨"p", "u1", 1⟩]
    ⟨"u/sessions/1/current/api/v1/steady-state", "k"⟩
    [Event.httpPost ("u/sessions"), Event.httpGet ("u/sessions/1/status"),
      Event.sleep 3,
      Event.httpPost ("u/sessions/1/current/api/v1/steady-state/session")]
    (by decide) (by decide) (by decide)

/-- Witness for `c9_unbound_local_on_open_failure`: the create-session POST
answers 500, so `open_steady_state` raises `SessionError` and the facade
trips over the unbound `model` local. -/
theorem c9_unbound_local_witness :
    (SteadyStateModel.run
      ⟨⟨"u", "k"⟩, "//r/a/b/c", [("x", ⟨"p", "u1"⟩)], [("bhp", ⟨"q", "psi"⟩)]⟩
      [("x", 1)]
      ⟨⟨⟨500, none, "boom"⟩, [], ⟨201⟩, ⟨202⟩⟩, ⟨202, ""⟩,
        [⟨200, "Succeeded", "done", ""⟩], ⟨200, "", []⟩, ⟨202, ""⟩⟩).1 =
      .exc (.unboundLocalError
        ("cannot access local variable model where it is not associated with a value")) ∧
    countCloseCalls (SteadyStateModel.run
      ⟨⟨"u", "k"⟩, "//r/a/b/c", [("x", ⟨"p", "u1"⟩)], [("bhp", ⟨"q", "psi"⟩)]⟩
      [("x", 1)]
      ⟨⟨⟨500, none, "boom"⟩, [], ⟨201⟩, ⟨202⟩⟩, ⟨202, ""⟩,
        [⟨200, "Succeeded", "done", ""⟩], ⟨200, "", []⟩, ⟨202, ""⟩⟩).2 = 0 :=
  c9_unbound_local_on_open_failure
    ⟨⟨"u", "k"⟩, "//r/a/b/c", [("x", ⟨"p", "u1"⟩)], [("bhp", ⟨"q", "psi"⟩)]⟩
    [("x", 1)]
    ⟨⟨⟨500, none, "boom"⟩, [], ⟨201⟩, ⟨202⟩⟩, ⟨202, ""⟩,
      [⟨200, "Succeeded", "done", ""⟩], ⟨200, "", []⟩, ⟨202, ""⟩⟩
    [⟨"p", "u1", 1⟩]
    (.sessionError ("Failed to create steady state session: boom: Code: 500"))
    [Event.httpPost ("u/sessions")]
    (by decide) (by decide)

/-- Witness for `c10_undeclared_path_keyerror`: the query response returns
the undeclared path `zz`, so translation raises `KeyError`. -/
theorem c10_undeclared_path_keyerror_witness :
    ∃ P, (SteadyStateModel.run
      ⟨⟨"u", "k"⟩, "//r/a/b/c", [("x", ⟨"p", "u1"⟩)], [("bhp", ⟨"q", "psi"⟩)]⟩
      [("x", 1)]
      ⟨⟨⟨202, some "/sessions/1/status", ""⟩, [⟨200, 200⟩], ⟨201⟩, ⟨202⟩⟩,
        ⟨202, ""⟩, [⟨200, "Succeeded", "done", ""⟩],
        ⟨200, "", [⟨"zz", "psi", 2⟩]⟩, ⟨202, ""⟩⟩).1 = .exc (.keyError P) ∧
      dictGet? (buildOutputLookup [("bhp", ⟨"q", "psi"⟩)]) P = none :=
  c10_undeclared_path_keyerror
    ⟨⟨"u", "k"⟩, "//r/a/b/c", [("x", ⟨"p", "u1"⟩)], [("bhp", ⟨"q", "psi"⟩)]⟩
    [("x", 1)]
    ⟨⟨⟨202, some "/sessions/1/status", ""⟩, [⟨200, 200⟩], ⟨201⟩, ⟨202⟩⟩,
      ⟨202, ""⟩, [⟨200, "Succeeded", "done", ""⟩],
      ⟨200, "", [⟨"zz", "psi", 2⟩]⟩, ⟨202, ""⟩⟩
    [⟨"p", "u1", 1⟩]
    ⟨"u/sessions/1/current/api/v1/steady-state", "k"⟩
    [Event.httpPost ("u/sessions"), Event.httpGet ("u/sessions/1/status"),
      Event.sleep 3,
      Event.httpPost ("u/sessions/1/current/api/v1/steady-state/session")]
    [Event.httpPost ("u/sessions/1/current/api/v1/steady-state/run"),
      Event.httpGet ("u/sessions/1/current/api/v1/steady-state/run")]
    (by decide) (by decide) (by decide) (by decide) (by decide) (by decide)

/-- C7 counterexample: the query response is empty (HTTP 200 with no
properties), so `SteadyStateModel.run` completes without raising yet
returns an output mapping whose key set is empty while the declared output
alias set is `bhp` - the key sets differ. -/
theorem c7_counterexample :
    (SteadyStateModel.run
      ⟨⟨"u", "k"⟩, "//r/a/b/c", [("x", ⟨"p", "u1"⟩)], [("bhp", ⟨"q", "psi"⟩)]⟩
      [("x", 1)]
      ⟨⟨⟨202, some "/sessions/1/status", ""⟩, [⟨200, 200⟩], ⟨201⟩, ⟨202⟩⟩,
        ⟨202, ""⟩, [⟨200, "Succeeded", "done", ""⟩], ⟨200, "", []⟩,
        ⟨202, ""⟩⟩).1 = .ok ([] : List (String × Rat)) ∧
    keysOf ([("bhp", (⟨"q", "psi"⟩ : PropDef))]) = ["bhp"] ∧
    ((keysOf ([] : List (String × Rat)) == ["bhp"]) = false) := by
  refine ⟨by decide, rfl, by decide⟩

/-- Witness for `c7_output_keys_amended`: when the scripted service echoes
exactly the declared output path, the returned key set matches the alias
set. -/
theorem c7_output_keys_amended_witness :
    ∃ out, (SteadyStateModel.run
      ⟨⟨"u", "k"⟩, "//r/a/b/c", [("x", ⟨"p", "u1"⟩)], [("bhp", ⟨"q", "psi"⟩)]⟩
      [("x", 1)]
      ⟨⟨⟨202, some "/sessions/1/status", ""⟩, [⟨200, 200⟩], ⟨201⟩, ⟨202⟩⟩,
        ⟨202, ""⟩, [⟨200, "Succeeded", "done", ""⟩],
        ⟨200, "", [⟨"q", "psi", 2⟩]⟩, ⟨202, ""⟩⟩).1 = .ok out ∧
      ∀ a, a ∈ keysOf out ↔
        a ∈ keysOf ([("x", ⟨"p", "u1"⟩),
          ("bhp", (⟨"q", "psi"⟩ : PropDef))]).tail :=
  (c7_output_keys_amended
    ⟨⟨"u", "k"⟩, "//r/a/b/c", [("x", ⟨"p", "u1"⟩)], [("bhp", ⟨"q", "psi"⟩)]⟩
    [("x", 1)]
    ⟨⟨⟨202, some "/sessions/1/status", ""⟩, [⟨200, 200⟩], ⟨201⟩, ⟨202⟩⟩,
      ⟨202, ""⟩, [⟨200, "Succeeded", "done", ""⟩],
      ⟨200, "", [⟨"q", "psi", 2⟩]⟩, ⟨202, ""⟩⟩).2
    [⟨"p", "u1", 1⟩]
    ⟨"u/sessions/1/current/api/v1/steady-state", "k"⟩
    [Event.httpPost ("u/sessions"), Event.httpGet ("u/sessions/1/status"),
      Event.sleep 3,
      Event.httpPost ("u/sessions/1/current/api/v1/steady-state/session")]
    [Event.httpPost ("u/sessions/1/current/api/v1/steady-state/run"),
      Event.httpGet ("u/sessions/1/current/api/v1/steady-state/run")]
    (by decide) (by decide) (by decide) (by decide) (by decide) (by decide)
    (by decide) (by decide)
